import Mathlib

/-!
Verification development for the SmartHealthyScan capture/analyze/validate
pipeline.  The definitions below are a shallow embedding of the TypeScript
sources:

* `src/geminiService.ts` — `analyzeIngredientsAndGetRecipes` (credential
  guard, response cleanup, `JSON.parse`, ingredients check, catch-block
  message mapping) followed, in the same file, by the `App` component
  (`handleCapture` with its 45000 ms `Promise.race` deadline, `handleReset`).
* `src/components/CameraView.tsx` — `startCamera` and `capturePhoto`.
* `src/unnamed/part_000` / `part_001` / `part_002` — alternative revisions of
  the same three modules (speed-mode service, 35000 ms App, fallback camera).

Numbers parsed from JSON are kept as their source lexeme (the pipeline never
computes with them).  `JSON.parse` failures are classified by failure site:
a character that cannot begin a JSON value is the only class every engine
era words as "Unexpected token …"; failures at structural positions carry
the engine's finer classes ("Unexpected number …" / "Unexpected string …" /
"Unexpected end of JSON input" in classic V8 wording, which the renderings
follow, without the position suffix that no code path inspects).
-/

/-- A JSON value as produced by `JSON.parse`.  Object fields keep source
order; duplicate keys are resolved last-wins by `lookupLast` below, matching
JavaScript. -/
inductive Json where
  | null : Json
  | bool (b : Bool) : Json
  | num (lexeme : String) : Json
  | str (s : String) : Json
  | arr (items : List Json) : Json
  | obj (fields : List (String × Json)) : Json

/-- Failure of `JSON.parse`, classified by failure site.  `unexpectedToken`
is reserved for a character that cannot begin a JSON value in value
position — the one class every engine era reports with `Unexpected token`.
Failures at structural positions (a separator, colon, key, or the end of
the payload expected) are reported per the token found there: a number or
string token out of place gets its own class, any other character is
`badStructure` (which classic V8 also words `Unexpected token` but modern
V8 words differently). -/
inductive PErr where
  | unexpectedEnd : PErr
  | unexpectedToken (c : Char) : PErr
  | unexpectedNumber : PErr
  | unexpectedString : PErr
  | badStructure (c : Char) : PErr
deriving DecidableEq

/-- The characters of the V8-style message for an unexpected-token failure. -/
def tokenMsgChars (c : Char) : List Char :=
  "Unexpected token ".data ++ [c] ++ " in JSON".data

/-- Render a parse failure as the message of the thrown `SyntaxError`,
in classic V8 wording.  Only the `unexpectedToken` rendering is relied on
by the theorems: every engine era includes `Unexpected token` exactly for
that class, while the number/string/end classes are worded without it in
every era. -/
def renderPErr : PErr → String
  | .unexpectedEnd => "Unexpected end of JSON input"
  | .unexpectedToken c => String.mk (tokenMsgChars c)
  | .unexpectedNumber => "Unexpected number in JSON"
  | .unexpectedString => "Unexpected string in JSON"
  | .badStructure c => String.mk (tokenMsgChars c)

/-- Failure at a structural position: classic V8 scans the token found
there and reports a number or string token in its own class, the end of
input as such, and any other character as a plain token failure. -/
def structuralErr : List Char → PErr
  | [] => .unexpectedEnd
  | c :: cs =>
    if c.isDigit then .unexpectedNumber
    else if c = '-' then
      (match cs with
       | d :: _ => if d.isDigit then .unexpectedNumber else .badStructure c
       | [] => .badStructure c)
    else if c = '\x22' then .unexpectedString
    else .badStructure c

/-- Whitespace accepted between JSON tokens (RFC 8259, as in `JSON.parse`). -/
def jsonWs (c : Char) : Bool :=
  c = ' ' || c = '\t' || c = '\n' || c = '\r'

/-- Drop inter-token whitespace. -/
def skipWs : List Char → List Char
  | [] => []
  | c :: cs => if jsonWs c then skipWs cs else c :: cs

/-- Whitespace trimmed by JavaScript `String.prototype.trim` (the common
subset actually reachable from this code base). -/
def jsWs (c : Char) : Bool :=
  c = ' ' || c = '\t' || c = '\n' || c = '\r' || c = '\x0b' || c = '\x0c' ||
  c = '\u00a0' || c = '\u3000' || c = '\ufeff'

/-- Drop leading JavaScript whitespace. -/
def dropWsLead : List Char → List Char
  | [] => []
  | c :: cs => if jsWs c then dropWsLead cs else c :: cs

/-- JavaScript `s.trim()`. -/
def jsTrim (s : String) : String :=
  String.mk ((dropWsLead ((dropWsLead s.data.reverse).reverse)))

/-- `matchAt needle hay` holds when `needle` is a leading segment of `hay`. -/
def matchAt : List Char → List Char → Bool
  | [], _ => true
  | _ :: _, [] => false
  | a :: as, b :: bs => if a = b then matchAt as bs else false

/-- `hasSub needle hay`: `needle` occurs contiguously inside `hay`. -/
def hasSub (needle : List Char) : List Char → Bool
  | [] => matchAt needle []
  | c :: cs => matchAt needle (c :: cs) || hasSub needle cs

/-- JavaScript `hay.includes(needle)`. -/
def strHas (hay needle : String) : Bool :=
  hasSub needle.data hay.data

/-- Consume a literal tail (`rue`, `alse`, `ull`), returning the rest;
a mismatched character is a structural failure, a truncation is
end-of-input. -/
def matchLit : List Char → List Char → Except PErr (List Char)
  | [], cs => .ok cs
  | _ :: _, [] => .error .unexpectedEnd
  | e :: es, c :: cs => if c = e then matchLit es cs else .error (.badStructure c)

/-- Longest leading run of decimal digits. -/
def takeDigits : List Char → List Char × List Char
  | [] => ([], [])
  | c :: cs =>
    if c.isDigit then
      let (ds, r) := takeDigits cs
      (c :: ds, r)
    else ([], c :: cs)

/-- Optional exponent part of a JSON number; `lex` is the lexeme so far. -/
def parseExp (lex : List Char) (r : List Char) : Except PErr (Json × List Char) :=
  match r with
  | [] => .ok (.num (String.mk lex), [])
  | e :: r1 =>
    if e = 'e' || e = 'E' then
      let (sg, r2) := match r1 with
        | '+' :: rr => (['+'], rr)
        | '-' :: rr => (['-'], rr)
        | _ => (([] : List Char), r1)
      match r2 with
      | [] => .error .unexpectedEnd
      | d :: _ =>
        if d.isDigit then
          let (ds, r3) := takeDigits r2
          .ok (.num (String.mk (lex ++ [e] ++ sg ++ ds)), r3)
        else .error (.badStructure d)
    else .ok (.num (String.mk lex), r)

/-- Optional fraction, then optional exponent, of a JSON number. -/
def parseFracExp (lex : List Char) (r : List Char) : Except PErr (Json × List Char) :=
  match r with
  | '.' :: r1 =>
    (match r1 with
     | [] => .error .unexpectedEnd
     | d :: _ =>
       if d.isDigit then
         let (ds, r2) := takeDigits r1
         parseExp (lex ++ ['.'] ++ ds) r2
       else .error (.badStructure d))
  | _ => parseExp lex r

/-- A JSON number; the head of `cs` is `-` or a digit. -/
def parseNum (cs : List Char) : Except PErr (Json × List Char) :=
  match cs with
  | [] => .error .unexpectedEnd
  | '-' :: cs1 =>
    (match cs1 with
     | [] => .error .unexpectedEnd
     | c :: rest =>
       if c = '0' then
         match rest with
         | d :: _ =>
           if d.isDigit then .error .unexpectedNumber
           else parseFracExp ['-', '0'] rest
         | [] => parseFracExp ['-', '0'] []
       else if c.isDigit then
         let (ds, r1) := takeDigits cs1
         parseFracExp ('-' :: ds) r1
       else .error (.badStructure c))
  | c :: rest =>
    if c = '0' then
      match rest with
      | d :: _ =>
        if d.isDigit then .error .unexpectedNumber
        else parseFracExp ['0'] rest
      | [] => parseFracExp ['0'] []
    else if c.isDigit then
      let (ds, r1) := takeDigits cs
      parseFracExp ds r1
    else .error (.badStructure c)

/-- Value of a hexadecimal digit. -/
def hexV (c : Char) : Option Nat :=
  if '0' ≤ c ∧ c ≤ '9' then some (c.toNat - '0'.toNat)
  else if 'a' ≤ c ∧ c ≤ 'f' then some (c.toNat - 'a'.toNat + 10)
  else if 'A' ≤ c ∧ c ≤ 'F' then some (c.toNat - 'A'.toNat + 10)
  else none

mutual

/-- One JSON value, fueled recursive descent mirroring `JSON.parse`.
Fuel exhaustion reports end-of-input; the entry point supplies more fuel
than any input can consume. -/
def parseVal (fuel : Nat) (cs : List Char) : Except PErr (Json × List Char) :=
  match fuel with
  | 0 => .error .unexpectedEnd
  | f + 1 =>
    match skipWs cs with
    | [] => .error .unexpectedEnd
    | '\x7b' :: rest => parseObjStart f rest
    | '[' :: rest => parseArrStart f rest
    | '\x22' :: rest =>
      (match parseStrChars f rest with
       | .ok (l, r) => .ok (.str (String.mk l), r)
       | .error e => .error e)
    | 't' :: rest =>
      (match matchLit "rue".data rest with
       | .ok r => .ok (.bool true, r)
       | .error e => .error e)
    | 'f' :: rest =>
      (match matchLit "alse".data rest with
       | .ok r => .ok (.bool false, r)
       | .error e => .error e)
    | 'n' :: rest =>
      (match matchLit "ull".data rest with
       | .ok r => .ok (.null, r)
       | .error e => .error e)
    | c :: rest =>
      if c = '-' || c.isDigit then parseNum (c :: rest)
      else .error (.unexpectedToken c)

/-- Directly after `{`: empty object or first member. -/
def parseObjStart (fuel : Nat) (cs : List Char) : Except PErr (Json × List Char) :=
  match fuel with
  | 0 => .error .unexpectedEnd
  | f + 1 =>
    match skipWs cs with
    | '\x7d' :: rest => .ok (.obj [], rest)
    | other => parseObjLoop f other []

/-- Members of an object, positioned at a key. -/
def parseObjLoop (fuel : Nat) (cs : List Char) (acc : List (String × Json)) :
    Except PErr (Json × List Char) :=
  match fuel with
  | 0 => .error .unexpectedEnd
  | f + 1 =>
    match skipWs cs with
    | [] => .error .unexpectedEnd
    | '\x22' :: r =>
      (match parseStrChars f r with
       | .error e => .error e
       | .ok (k, r1) =>
         match skipWs r1 with
         | [] => .error .unexpectedEnd
         | ':' :: r2 =>
           (match parseVal f r2 with
            | .error e => .error e
            | .ok (v, r3) =>
              match skipWs r3 with
              | [] => .error .unexpectedEnd
              | '\x7d' :: r4 => .ok (.obj (((String.mk k, v) :: acc).reverse), r4)
              | ',' :: r4 => parseObjLoop f r4 ((String.mk k, v) :: acc)
              | c :: cs2 => .error (structuralErr (c :: cs2)))
         | c :: cs2 => .error (structuralErr (c :: cs2)))
    | c :: cs2 => .error (structuralErr (c :: cs2))

/-- Directly after `[`: empty array or first element. -/
def parseArrStart (fuel : Nat) (cs : List Char) : Except PErr (Json × List Char) :=
  match fuel with
  | 0 => .error .unexpectedEnd
  | f + 1 =>
    match skipWs cs with
    | ']' :: rest => .ok (.arr [], rest)
    | other => parseArrLoop f other []

/-- Elements of an array, positioned at a value. -/
def parseArrLoop (fuel : Nat) (cs : List Char) (acc : List Json) :
    Except PErr (Json × List Char) :=
  match fuel with
  | 0 => .error .unexpectedEnd
  | f + 1 =>
    match parseVal f cs with
    | .error e => .error e
    | .ok (v, r) =>
      match skipWs r with
      | [] => .error .unexpectedEnd
      | ']' :: r2 => .ok (.arr ((v :: acc).reverse), r2)
      | ',' :: r2 => parseArrLoop f r2 (v :: acc)
      | c :: cs2 => .error (structuralErr (c :: cs2))

/-- Body of a JSON string after the opening quote, with escapes. -/
def parseStrChars (fuel : Nat) (cs : List Char) : Except PErr (List Char × List Char) :=
  match fuel with
  | 0 => .error .unexpectedEnd
  | f + 1 =>
    match cs with
    | [] => .error .unexpectedEnd
    | c :: rest =>
      if c = '\x22' then .ok ([], rest)
      else if c = '\x5c' then
        match rest with
        | [] => .error .unexpectedEnd
        | e :: rest2 =>
          if e = '\x22' || e = '\x5c' || e = '/' then
            (match parseStrChars f rest2 with
             | .ok (l, r) => .ok (e :: l, r)
             | .error er => .error er)
          else if e = 'b' then
            (match parseStrChars f rest2 with
             | .ok (l, r) => .ok ('\x08' :: l, r)
             | .error er => .error er)
          else if e = 'f' then
            (match parseStrChars f rest2 with
             | .ok (l, r) => .ok ('\x0c' :: l, r)
             | .error er => .error er)
          else if e = 'n' then
            (match parseStrChars f rest2 with
             | .ok (l, r) => .ok ('\n' :: l, r)
             | .error er => .error er)
          else if e = 'r' then
            (match parseStrChars f rest2 with
             | .ok (l, r) => .ok ('\r' :: l, r)
             | .error er => .error er)
          else if e = 't' then
            (match parseStrChars f rest2 with
             | .ok (l, r) => .ok ('\t' :: l, r)
             | .error er => .error er)
          else if e = 'u' then
            (match rest2 with
             | h1 :: h2 :: h3 :: h4 :: rest3 =>
               (match hexV h1, hexV h2, hexV h3, hexV h4 with
                | some a, some b, some c3, some d =>
                  (match parseStrChars f rest3 with
                   | .ok (l, r) => .ok (Char.ofNat (((a * 16 + b) * 16 + c3) * 16 + d) :: l, r)
                   | .error er => .error er)
                | _, _, _, _ => .error (.badStructure e))
             | _ => .error .unexpectedEnd)
          else .error (.badStructure e)
      else if c.toNat < 32 then .error (.badStructure c)
      else
        match parseStrChars f rest with
        | .ok (l, r) => .ok (c :: l, r)
        | .error er => .error er

end

/-- `JSON.parse` over a whole string: one value, whitespace allowed around
it, nothing after it. -/
def parseJson (s : String) : Except PErr Json :=
  match parseVal (2 * s.data.length + 16) s.data with
  | .error e => .error e
  | .ok (v, rest) =>
    match skipWs rest with
    | [] => .ok v
    | c :: cs2 => .error (structuralErr (c :: cs2))

/-! ## JavaScript value semantics used by the validator -/

/-- Result of a JavaScript property access: a JSON value or `undefined`. -/
inductive JsVal where
  | undefined : JsVal
  | val (j : Json) : JsVal

/-- Last-wins field lookup, as JavaScript objects built by `JSON.parse`
resolve duplicate keys. -/
def lookupLast (fs : List (String × Json)) (k : String) : JsVal :=
  match fs with
  | [] => .undefined
  | (k2, v) :: rest =>
    match lookupLast rest k with
    | .undefined => if k2 = k then .val v else .undefined
    | .val w => .val w

/-- Digits of a number lexeme before any exponent marker. -/
def mantissa (l : List Char) : List Char :=
  l.takeWhile (fun c => c ≠ 'e' ∧ c ≠ 'E')

/-- The numeric value of a JSON number lexeme is zero. -/
def numIsZero (lex : String) : Bool :=
  (mantissa lex.data).all (fun c => !c.isDigit || c = '0')

/-- JavaScript truthiness of a JSON value (`NaN` cannot arise from JSON). -/
def jsTruthy : Json → Bool
  | .null => false
  | .bool b => b
  | .num lex => !(numIsZero lex)
  | .str s => !(s = "")
  | .arr _ => true
  | .obj _ => true

/-- Truthiness of a property-access result (`undefined` is falsy). -/
def jsTruthyVal : JsVal → Bool
  | .undefined => false
  | .val j => jsTruthy j

/-- JavaScript property read `receiver.k`: throws a `TypeError` on `null`,
otherwise yields the field (objects), `length` (arrays and strings), or
`undefined`.  The thrown message follows modern V8. -/
def getProp : Json → String → Except String JsVal
  | .null, k =>
    .error ("Cannot read properties of null (reading \x27" ++ k ++ "\x27)")
  | .obj fs, k => .ok (lookupLast fs k)
  | .arr xs, k =>
    .ok (if k = "length" then .val (.num (toString xs.length)) else .undefined)
  | .str s, k =>
    .ok (if k = "length" then .val (.num (toString s.length)) else .undefined)
  | _, _ => .ok .undefined

/-- JavaScript strict comparison `x === 0` for a property-access result. -/
def strictEqZeroVal : JsVal → Bool
  | .val (.num lex) => numIsZero lex
  | _ => false

/-! ## Message constants of `src/geminiService.ts` -/

/-- Thrown when `API_KEY` is absent, `"undefined"`, or shorter than 10. -/
def apiKeyMissingMsg : String := "API_KEY 未正确注入或无效。请检查部署平台的环境变量设置。"

/-- Thrown when `response.text` is empty or absent. -/
def emptyResponseMsg : String := "AI 响应为空，请尝试重新拍摄。"

/-- Thrown when `ingredients` is falsy or has `length === 0`. -/
def noIngredientsMsg : String := "未能清晰识别到食材。请靠近拍摄，并确保光线充足。"

/-- Substituted by the catch block when the message includes `fetch`. -/
def networkTimeoutMsg : String := "网络连接超时，请检查您的网络环境。"

/-- Substituted by the catch block when the message includes
`Unexpected token`. -/
def parseFailMsg : String := "数据解析失败，模型返回了非预期的格式，请重试。"

/-- The `App` deadline rejection message (`geminiService.ts`, appended `App`,
45000 ms timer). -/
def timeoutMsg : String := "AI 响应超时，可能是网络环境不稳定或图片上传受阻。"

/-- The `App` replacement message for credential-related failures. -/
def configRewrittenMsg : String := "环境配置错误：请检查部署平台的 API_KEY 设置是否正确注入。"

/-! ## The response schema literal sent to the service
(`src/geminiService.ts`, `responseSchema`) -/

/-- Shape of a `@google/genai` response schema node. -/
inductive Schema where
  | strS (enum : Option (List String)) : Schema
  | intS : Schema
  | arrS (items : Schema) : Schema
  | objS (props : List (String × Schema)) (required : List String) : Schema

/-- `required` markers of a schema node. -/
def requiredOf : Schema → List String
  | .objS _ r => r
  | _ => []

/-- Item schema for `ingredients` in `responseSchema`. -/
def ingredientItemSchema : Schema :=
  .objS [("name", .strS none), ("info", .strS none), ("nutrition", .strS none),
         ("caloriesPer100g", .intS)]
        ["name", "info", "caloriesPer100g"]

/-- Item schema for `recipes` in `responseSchema`. -/
def recipeItemSchema : Schema :=
  .objS [("id", .strS none), ("name", .strS none), ("description", .strS none),
         ("difficulty", .strS (some ["简单", "中等", "困难"])),
         ("prepTime", .strS none),
         ("allIngredients", .arrS (.strS none)),
         ("instructions", .arrS (.strS none))]
        ["id", "name", "difficulty", "prepTime", "allIngredients", "instructions"]

/-- The whole `responseSchema` literal. -/
def responseSchema : Schema :=
  .objS [("ingredients", .arrS ingredientItemSchema),
         ("recipes", .arrS recipeItemSchema)]
        ["ingredients", "recipes"]

/-! ## The validator and orchestrator of `src/geminiService.ts` -/

/-- The cleanup applied to the raw response before `JSON.parse`
(`const cleanedText = text.trim()`). -/
def cleanedText (t : String) : String := jsTrim t

/-- `!apiKey || apiKey === "undefined" || apiKey.length < 10`. -/
def apiKeyInvalid : Option String → Bool
  | none => true
  | some s => s = "" || s = "undefined" || decide (s.length < 10)

/-- The post-parse ingredients check:
`if (!parsedData.ingredients || parsedData.ingredients.length === 0) throw`.
Property access on a `null` payload throws a `TypeError`, which this models
explicitly. -/
def checkIngredients (v : Json) : Except String Json :=
  match getProp v "ingredients" with
  | .error m => .error m
  | .ok ing =>
    if !(jsTruthyVal ing) then .error noIngredientsMsg
    else
      match ing with
      | .undefined => .error noIngredientsMsg
      | .val j =>
        match getProp j "length" with
        | .error m => .error m
        | .ok lenv =>
          if strictEqZeroVal lenv then .error noIngredientsMsg else .ok v

/-- The body of the `try` block after the service responded: empty-text
guard, cleanup, `JSON.parse`, ingredients check.  `none` models an absent
`response.text`. -/
def validateResponseText : Option String → Except String Json
  | none => .error emptyResponseMsg
  | some t =>
    if t = "" then .error emptyResponseMsg
    else
      match parseJson (cleanedText t) with
      | .error e => .error (renderPErr e)
      | .ok v => checkIngredients v

/-- The catch block of `analyzeIngredientsAndGetRecipes`: a message
containing `fetch` becomes the network message, one containing
`Unexpected token` becomes the parse-failure message, anything else is
rethrown unchanged. -/
def catchMap (m : String) : String :=
  if strHas m "fetch" then networkTimeoutMsg
  else if strHas m "Unexpected token" then parseFailMsg
  else m

/-- Behavior of the remote `generateContent` call: it throws, or responds
with an optional text payload. -/
inductive SvcCall where
  | throws (msg : String) : SvcCall
  | responds (text : Option String) : SvcCall

/-- `analyzeIngredientsAndGetRecipes` from `src/geminiService.ts`, as a
function of the `process.env.API_KEY` value and the service behavior.  The
second component records whether the network call was issued.  A successful
run returns the parsed payload unchanged (`return parsedData`). -/
def analyzeIngredientsAndGetRecipes (apiKeyEnv : Option String) (svc : SvcCall) :
    Except String Json × Bool :=
  if apiKeyInvalid apiKeyEnv then (.error apiKeyMissingMsg, false)
  else
    match svc with
    | .throws m => (.error (catchMap m), true)
    | .responds t =>
      (match validateResponseText t with
       | .error m => .error (catchMap m)
       | .ok v => .ok v, true)

/-- `analyzeIngredientsAndGetRecipes` from the `src/unnamed/part_000`
revision (speed mode): no credential validation, the call is always issued,
and every failure collapses to one generic message. -/
def analyzeSpeedMode (_apiKeyEnv : Option String) (svc : SvcCall) :
    Except String Json × Bool :=
  match svc with
  | .throws _ => (.error "识别失败，请检查图片并重试。", true)
  | .responds t =>
    (match t with
     | none => .error "识别失败，请检查图片并重试。"
     | some s =>
       if s = "" then .error "识别失败，请检查图片并重试。"
       else
         match parseJson (jsTrim s) with
         | .error _ => .error "识别失败，请检查图片并重试。"
         | .ok v => .ok v, true)

/-! ## Error taxonomy

The source distinguishes failures only by their message strings; the spec's
ErrorClassifier (spec sections 4.4 and 7) assigns each a kind.  `errKind`
maps each message constant the pipeline can surface to the spec's kind; the
credential rule reproduces the `App` component's case-insensitive
`/api[_\s]?key/i` test. -/

/-- Kinds of the spec's error taxonomy. -/
inductive ErrKind where
  | ConfigurationError | NetworkError | ParseError
  | ValidationError | TimeoutError | UnknownError
deriving DecidableEq

/-- One character of JavaScript `\s` (the subset reachable here). -/
def jsRegexSpace (c : Char) : Bool := jsWs c

/-- `key` (any casing) leads the list. -/
def keyAt : List Char → Bool
  | k :: e :: y :: _ => k.toLower = 'k' && e.toLower = 'e' && y.toLower = 'y'
  | _ => false

/-- `api[_\s]?key` (any casing) matches at the head of the list. -/
def apiKeyAt : List Char → Bool
  | a :: p :: i :: rest =>
    if a.toLower = 'a' && p.toLower = 'p' && i.toLower = 'i' then
      keyAt rest ||
        (match rest with
         | s :: rest2 => (s = '_' || jsRegexSpace s) && keyAt rest2
         | [] => false)
    else false
  | _ => false

/-- `/api[_\s]?key/i.test(msg)`, scanning every position. -/
def apiKeyScan : List Char → Bool
  | [] => false
  | c :: cs => apiKeyAt (c :: cs) || apiKeyScan cs

/-- The `App` component's credential-message test. -/
def apiKeyMsgTest (s : String) : Bool := apiKeyScan s.data

/-- The spec's classifier over the messages this pipeline surfaces. -/
def errKind (m : String) : ErrKind :=
  if apiKeyMsgTest m then .ConfigurationError
  else if m = networkTimeoutMsg then .NetworkError
  else if m = parseFailMsg || m = emptyResponseMsg then .ParseError
  else if m = noIngredientsMsg then .ValidationError
  else if m = timeoutMsg then .TimeoutError
  else .UnknownError

/-! ## The `App` session coordinator
(`src/geminiService.ts`, appended `App` component) -/

/-- The `App` component's observable state. -/
structure AppState where
  isProcessing : Bool
  result : Option Json
  error : Option String

/-- Behavior of one `analyzeIngredientsAndGetRecipes` promise: it never
settles, or settles at time `t` (milliseconds) with an outcome. -/
inductive SvcBehavior where
  | never : SvcBehavior
  | resolvesAt (t : Nat) (r : Except String Json) : SvcBehavior

/-- The `Promise.race` deadline in `handleCapture` (45000 ms). -/
def deadlineMs : Nat := 45000

/-- First-settles-wins race between the service promise and the deadline
timer: the service wins strictly before the deadline, otherwise the timer
rejects with `timeoutMsg` at exactly `deadlineMs`; a later service
resolution is discarded.  Returns the winning outcome and the time at which
`await Promise.race` settles. -/
def raceOutcome : SvcBehavior → Except String Json × Nat
  | .never => (.error timeoutMsg, deadlineMs)
  | .resolvesAt t r =>
    if t < deadlineMs then (r, t) else (.error timeoutMsg, deadlineMs)

/-- The catch block's message rewrite:
`if (/api[_\s]?key/i.test(msg)) msg = configRewrittenMsg`. -/
def rewriteMsg (m : String) : String :=
  if apiKeyMsgTest m then configRewrittenMsg else m

/-- One store update performed by `handleCapture`. -/
inductive Ev where
  | setProcessing (b : Bool) : Ev
  | setResult (v : Option Json) : Ev
  | setError (v : Option String) : Ev

/-- The sequence of store updates one `handleCapture` run performs:
`setIsProcessing(true); setError(null);` then exactly one of
`setResult(data)` / `setError(msg)`, then `setIsProcessing(false)`. -/
def handleCaptureEvents (svc : SvcBehavior) : List Ev :=
  [.setProcessing true, .setError none] ++
  (match (raceOutcome svc).1 with
   | .ok d => [Ev.setResult (some d)]
   | .error m => [Ev.setError (some (rewriteMsg m))]) ++
  [.setProcessing false]

/-- Apply one store update. -/
def applyEv (s : AppState) : Ev → AppState
  | .setProcessing b => { s with isProcessing := b }
  | .setResult v => { s with result := v }
  | .setError v => { s with error := v }

/-- `handleCapture`: the final state together with the time at which the
race settled. -/
def handleCapture (s : AppState) (svc : SvcBehavior) : AppState × Nat :=
  ((handleCaptureEvents svc).foldl applyEv s, (raceOutcome svc).2)

/-- `handleReset`: `setResult(null); setError(null)`. -/
def handleReset (s : AppState) : AppState :=
  { s with result := none, error := none }

/-- An event writes the stored outcome (a result, or a non-null error). -/
def isOutcomeWrite : Ev → Bool
  | .setResult _ => true
  | .setError (some _) => true
  | _ => false

/-- Number of outcome writes in an update sequence. -/
def outcomeWrites : List Ev → Nat
  | [] => 0
  | e :: es => (if isOutcomeWrite e then 1 else 0) + outcomeWrites es

/-- States reachable from the initial `App` state when every capture starts
with no stored result, as the rendering enforces: the capture view is only
mounted while `result` is `null`. -/
inductive ReachableGuarded : AppState → Prop where
  | start : ReachableGuarded ⟨false, none, none⟩
  | capture (s : AppState) (svc : SvcBehavior) :
      ReachableGuarded s → s.result = none →
      ReachableGuarded (handleCapture s svc).1
  | reset (s : AppState) :
      ReachableGuarded s → ReachableGuarded (handleReset s)

/-- At most one stored outcome. -/
def atMostOne (s : AppState) : Prop :=
  s.result = none ∨ s.error = none

/-! ## The camera controller (`src/components/CameraView.tsx`) -/

/-- How a `getUserMedia` facing-mode constraint is phrased. -/
inductive FacingSpec where
  | exactEnv : FacingSpec
  | idealEnv : FacingSpec
deriving DecidableEq

/-- A `getUserMedia` constraint set. -/
structure Constraints where
  facing : Option FacingSpec
  idealWidth : Option Nat
  idealHeight : Option Nat
  audio : Bool
deriving DecidableEq

/-- `CameraView.tsx` preferred configuration:
`facingMode: 'environment', width 1280, height 720`. -/
def preferredConstraints : Constraints :=
  ⟨some .exactEnv, some 1280, some 720, false⟩

/-- `part_002` preferred configuration:
`facingMode: ideal 'environment', width 1280, height 720`. -/
def preferredConstraintsAlt : Constraints :=
  ⟨some .idealEnv, some 1280, some 720, false⟩

/-- `part_002` fallback configuration: `{ video: true, audio: false }`. -/
def anyCameraConstraints : Constraints :=
  ⟨none, none, none, false⟩

/-- Outcome of `startCamera`: an error surface, or an acquired stream. -/
inductive StartOutcome where
  | errorMsg (m : String) : StartOutcome
  | acquired (streamId : Nat) : StartOutcome
deriving DecidableEq

/-- `CameraView.tsx` secure-context error. -/
def httpsRequiredMsg : String := "识别功能需要 HTTPS 安全连接，请检查部署配置。"

/-- `CameraView.tsx` permission-denied error. -/
def camDeniedMsg : String := "摄像头权限被拒绝，请在设置中开启。"

/-- `CameraView.tsx` generic acquisition error. -/
def camUnavailableMsg : String := "无法访问摄像头设备。"

/-- `part_002` acquisition error. -/
def camAccessFailMsg : String := "无法访问摄像头。请检查权限设置。"

/-- `startCamera` from `src/components/CameraView.tsx`: a secure-context
guard, then a single `getUserMedia` attempt with the preferred
configuration; a rejection maps `NotAllowedError` to the denial message and
everything else to the generic one.  The second component lists the
constraint sets attempted, in order.  The acquisition oracle `acquire`
models `navigator.mediaDevices.getUserMedia` and rejects with the error
name. -/
def startCamera (secureContext : Bool) (hostname : String)
    (acquire : Constraints → Except String Nat) : StartOutcome × List Constraints :=
  if !secureContext && !(hostname = "localhost") then (.errorMsg httpsRequiredMsg, [])
  else
    match acquire preferredConstraints with
    | .ok sid => (.acquired sid, [preferredConstraints])
    | .error nm =>
      (.errorMsg (if nm = "NotAllowedError" then camDeniedMsg else camUnavailableMsg),
       [preferredConstraints])

/-- `startCamera` from the `src/unnamed/part_002` revision: the preferred
configuration, then on failure a minimal any-camera fallback, and an error
surface only if both acquisitions fail. -/
def startCameraFallback (acquire : Constraints → Except String Nat) :
    StartOutcome × List Constraints :=
  match acquire preferredConstraintsAlt with
  | .ok sid => (.acquired sid, [preferredConstraintsAlt])
  | .error _ =>
    match acquire anyCameraConstraints with
    | .ok sid => (.acquired sid, [preferredConstraintsAlt, anyCameraConstraints])
    | .error _ =>
      (.errorMsg camAccessFailMsg, [preferredConstraintsAlt, anyCameraConstraints])

/-- The `CameraView` component state touched by `capturePhoto`. -/
structure CamUiState where
  isProcessing : Bool
  streamActive : Bool
  isFlashing : Bool
  capturedImage : Option String

/-- The platform objects `capturePhoto` reads: the refs, the video element's
readiness and dimensions, the 2d context, the live stream, and the base64
payload the canvas encoder would produce for the current frame. -/
structure FrameSource where
  videoPresent : Bool
  canvasPresent : Bool
  readyState : Nat
  videoWidth : Nat
  videoHeight : Nat
  hasContext : Bool
  srcObjectPresent : Bool
  encodePayload : String

/-- Externally visible actions of one `capturePhoto` run. -/
inductive CapEv where
  | flash : CapEv
  | rasterize : CapEv
  | emit (b64 : String) : CapEv
  | stopTracks : CapEv

/-- `canvas.toDataURL('image/jpeg', 0.7)`: the base64 data URL, or the
degenerate `data:,` when the encoder yields no payload. -/
def mkDataUrl (p : String) : String :=
  if p = "" then "data:," else "data:image/jpeg;base64," ++ p

/-- JavaScript `s.split(sep)` over characters. -/
def splitOnChar (sep : Char) : List Char → List (List Char)
  | [] => [[]]
  | c :: cs =>
    if c = sep then [] :: splitOnChar sep cs
    else
      let r := splitOnChar sep cs
      (c :: r.headD []) :: r.tail

/-- `dataUrl.split(',')[1]`. -/
def splitComma1 (s : String) : Option String :=
  ((splitOnChar ',' s.data).map String.mk).get? 1

/-- `capturePhoto` from `src/components/CameraView.tsx`: guards
(`isProcessing`, `!streamActive`, missing refs, `readyState < 2`,
`videoWidth === 0`) return without any effect; past them the frame is
rasterized, the data URL stored, `onCapture` invoked when the split yields a
non-empty base64 segment, and finally all tracks stopped and the streaming
flag cleared.  Returns the new state and the action sequence. -/
def capturePhoto (st : CamUiState) (fs : FrameSource) : CamUiState × List CapEv :=
  if st.isProcessing || !st.streamActive || !fs.videoPresent || !fs.canvasPresent then
    (st, [])
  else if fs.readyState < 2 || fs.videoWidth = 0 then (st, [])
  else
    let st1 := { st with isFlashing := true }
    if fs.hasContext then
      let dataUrl := mkDataUrl fs.encodePayload
      let st2 := { st1 with capturedImage := some dataUrl }
      let emitEvs :=
        match splitComma1 dataUrl with
        | some b => if !(b = "") then [CapEv.emit b] else []
        | none => []
      let stopPart :=
        if fs.srcObjectPresent then
          (({ st2 with streamActive := false }, [CapEv.stopTracks]) :
            CamUiState × List CapEv)
        else (st2, [])
      (stopPart.1, [CapEv.flash, CapEv.rasterize] ++ emitEvs ++ stopPart.2)
    else (st1, [CapEv.flash])

/-! ## Concrete fixtures used by the theorems -/

/-- A structurally plausible credential (non-empty, not the sentinel, 16
characters). -/
def goodKey : Option String := some "AIzaSyTestKey123"

/-- A schema-shaped payload with one ingredient. -/
def unfencedPayloadText : String :=
  "\x7b\"ingredients\":[\x7b\"name\":\"番茄\",\"info\":\"x\",\"caloriesPer100g\":18\x7d],\"recipes\":[]\x7d"

/-- The same payload wrapped in markdown code fences. -/
def fencedPayloadText : String := "```json\n" ++ unfencedPayloadText ++ "\n```"

/-- The parse of `unfencedPayloadText`. -/
def samplePayloadJson : Json :=
  .obj [("ingredients",
         .arr [.obj [("name", .str "番茄"), ("info", .str "x"),
                     ("caloriesPer100g", .num "18")]]),
        ("recipes", .arr [])]

/-- A payload whose ingredient lacks the required `name` and whose recipe
lacks five of its six required fields. -/
def missingNameText : String :=
  "\x7b\"ingredients\":[\x7b\"info\":\"青菜\",\"caloriesPer100g\":15\x7d],\"recipes\":[\x7b\"id\":\"r1\"\x7d]\x7d"

/-- The parse of `missingNameText`. -/
def missingNameJson : Json :=
  .obj [("ingredients", .arr [.obj [("info", .str "青菜"), ("caloriesPer100g", .num "15")]]),
        ("recipes", .arr [.obj [("id", .str "r1")]])]

/-- The `TypeError` message for reading `ingredients` off a `null` payload. -/
def nullIngredientsReadMsg : String :=
  "Cannot read properties of null (reading \x27ingredients\x27)"

/-- An acquisition oracle that rejects the `CameraView.tsx` preferred
configuration but would grant any other request. -/
def acqPrefFails : Constraints → Except String Nat :=
  fun c => if c = preferredConstraints then .error "NotFoundError" else .ok 7

/-- An acquisition oracle that rejects every request. -/
def acqAllFail : Constraints → Except String Nat :=
  fun _ => .error "NotFoundError"

/-! ## Helper lemmas -/

/-- Characters of a concatenation. -/
theorem strDataAppend (a b : String) : (a ++ b).data = a.data ++ b.data := rfl

/-- Rebuilding a string from its characters. -/
theorem strMkData (p : String) : String.mk p.data = p := rfl

/-- A list without the separator is one split group. -/
theorem splitOnChar_noSep (l : List Char) (h : ∀ c ∈ l, ¬(c = ',')) :
    splitOnChar ',' l = [l] := by
  induction l with
  | nil => rfl
  | cons c cs ih =>
    have hc : ¬(c = ',') := h c (List.mem_cons_self c cs)
    have ih2 := ih (fun d hd => h d (List.mem_cons_of_mem c hd))
    simp [splitOnChar, hc, ih2]

/-- Splitting the data URL recovers a comma-free, non-empty payload. -/
theorem splitComma1_mkDataUrl (p : String) (hp : ¬(p = ""))
    (hc : ∀ c ∈ p.data, ¬(c = ',')) : splitComma1 (mkDataUrl p) = some p := by
  have h1 : mkDataUrl p = "data:image/jpeg;base64," ++ p := by simp [mkDataUrl, hp]
  have h2 : splitOnChar ',' p.data = [p.data] := splitOnChar_noSep p.data hc
  rw [h1]
  show (((splitOnChar ',' ("data:image/jpeg;base64," ++ p).data).map String.mk).get? 1) = some p
  rw [strDataAppend]
  rw [show ("data:image/jpeg;base64,").data
        = ['d','a','t','a',':','i','m','a','g','e','/','j','p','e','g',';',
           'b','a','s','e','6','4',','] from rfl]
  simp [splitOnChar, h2, strMkData]

/-- The unexpected-token message never contains `fetch`. -/
theorem tokenMsg_no_fetch (c : Char) :
    strHas (renderPErr (.unexpectedToken c)) "fetch" = false := by
  show hasSub ("fetch").data (tokenMsgChars c) = false
  rw [show ("fetch").data = ['f','e','t','c','h'] from rfl]
  rw [show tokenMsgChars c
        = ['U','n','e','x','p','e','c','t','e','d',' ','t','o','k','e','n',' ',
           c, ' ','i','n',' ','J','S','O','N'] from rfl]
  simp [hasSub, matchAt]

/-- The unexpected-token message always contains `Unexpected token`. -/
theorem tokenMsg_has_token (c : Char) :
    strHas (renderPErr (.unexpectedToken c)) "Unexpected token" = true := by
  show hasSub ("Unexpected token").data (tokenMsgChars c) = true
  rw [show ("Unexpected token").data
        = ['U','n','e','x','p','e','c','t','e','d',' ','t','o','k','e','n'] from rfl]
  rw [show tokenMsgChars c
        = ['U','n','e','x','p','e','c','t','e','d',' ','t','o','k','e','n',' ',
           c, ' ','i','n',' ','J','S','O','N'] from rfl]
  simp [hasSub, matchAt]

/-- Every `handleCapture` run ends unbusy with either a fresh result and a
cleared error, or the prior result and a fresh error. -/
theorem handleCapture_shape (s : AppState) (svc : SvcBehavior) :
    (∃ d, (handleCapture s svc).1 = ⟨false, some d, none⟩) ∨
    (∃ m, (handleCapture s svc).1 = ⟨false, s.result, some m⟩) := by
  cases svc with
  | never => exact Or.inr ⟨rewriteMsg timeoutMsg, rfl⟩
  | resolvesAt t r =>
    by_cases ht : t < deadlineMs
    · cases r with
      | ok d =>
        refine Or.inl ⟨d, ?_⟩
        simp [handleCapture, handleCaptureEvents, raceOutcome, ht, applyEv]
      | error m =>
        refine Or.inr ⟨rewriteMsg m, ?_⟩
        simp [handleCapture, handleCaptureEvents, raceOutcome, ht, applyEv]
    · refine Or.inr ⟨rewriteMsg timeoutMsg, ?_⟩
      simp [handleCapture, handleCaptureEvents, raceOutcome, ht, applyEv]

/-! ## Claim theorems -/

/-- C1 (counterexample): the cleanup step does not strip markdown fences —
cleaning the fenced payload leaves it unchanged, so it differs from the
unfenced payload, contradicting "produces output identical to the same text
without fences". -/
theorem cleanup_does_not_strip_fences :
    ¬(cleanedText fencedPayloadText = unfencedPayloadText) ∧
    cleanedText fencedPayloadText = fencedPayloadText := by
  exact ⟨by decide, rfl⟩

/-- C1 (amended): the cleanup is exactly JavaScript whitespace trimming, so
fence markers survive it; consequently validating the fenced payload fails
with the ParseError message while the unfenced payload validates
successfully. -/
theorem cleanup_is_trim_only :
    (∀ s : String, cleanedText s = jsTrim s) ∧
    analyzeIngredientsAndGetRecipes goodKey (.responds (some fencedPayloadText))
      = (.error parseFailMsg, true) ∧
    analyzeIngredientsAndGetRecipes goodKey (.responds (some unfencedPayloadText))
      = (.ok samplePayloadJson, true) ∧
    errKind parseFailMsg = ErrKind.ParseError := by
  exact ⟨fun _ => rfl, rfl, rfl, rfl⟩

/-- C2 (counterexample): a payload whose ingredient lacks the required
`name` (and whose recipe lacks five required fields) is returned unchanged
by the validator instead of raising a ValidationError. -/
theorem required_fields_not_enforced :
    analyzeIngredientsAndGetRecipes goodKey (.responds (some missingNameText))
      = (.ok missingNameJson, true) := rfl

/-- C2 (amended): the required-field markers exist only in the
`responseSchema` literal sent to the service; the local validator checks
nothing beyond the ingredients field — every payload is either returned
unchanged, rejected with the no-ingredients message, or (for `null`) aborts
on the `TypeError` — and in particular the name-less payload passes through
unchanged, with missing optional fields left absent rather than defaulted. -/
theorem validator_checks_only_ingredients :
    requiredOf ingredientItemSchema = ["name", "info", "caloriesPer100g"] ∧
    requiredOf recipeItemSchema
      = ["id", "name", "difficulty", "prepTime", "allIngredients", "instructions"] ∧
    (∀ v : Json, checkIngredients v = .ok v ∨
       checkIngredients v = .error noIngredientsMsg ∨
       checkIngredients v = .error nullIngredientsReadMsg) ∧
    checkIngredients missingNameJson = .ok missingNameJson := by
  refine ⟨rfl, rfl, ?_, rfl⟩
  intro v
  cases v with
  | null => exact Or.inr (Or.inr rfl)
  | bool b => exact Or.inr (Or.inl rfl)
  | num lex => exact Or.inr (Or.inl rfl)
  | str s => exact Or.inr (Or.inl rfl)
  | arr xs => exact Or.inr (Or.inl rfl)
  | obj fs =>
    cases h : lookupLast fs "ingredients" with
    | undefined =>
      have hg : getProp (Json.obj fs) "ingredients" = .ok .undefined := by
        simp [getProp, h]
      exact Or.inr (Or.inl (by simp [checkIngredients, hg, jsTruthyVal]))
    | val j =>
      have hg : getProp (Json.obj fs) "ingredients" = .ok (.val j) := by
        simp [getProp, h]
      by_cases ht : jsTruthy j = true
      · cases hl : getProp j "length" with
        | error m =>
          exfalso
          cases j <;> simp_all [getProp, jsTruthy]
        | ok lenv =>
          by_cases hz : strictEqZeroVal lenv = true
          · exact Or.inr (Or.inl
              (by simp [checkIngredients, hg, jsTruthyVal, ht, hl, hz]))
          · exact Or.inl
              (by simp [checkIngredients, hg, jsTruthyVal, ht, hl, hz])
      · exact Or.inr (Or.inl
          (by simp [checkIngredients, hg, jsTruthyVal, ht]))

/-- C3: an absent, empty, sentinel (`"undefined"`), or too-short credential
makes `analyzeIngredientsAndGetRecipes` fail with the configuration message
— classified ConfigurationError — without issuing the network call. -/
theorem invalid_credential_short_circuits (k : Option String)
    (h : k = none ∨ ∃ s, k = some s ∧ (s = "" ∨ s = "undefined" ∨ s.length < 10))
    (svc : SvcCall) :
    analyzeIngredientsAndGetRecipes k svc = (.error apiKeyMissingMsg, false) ∧
    errKind apiKeyMissingMsg = ErrKind.ConfigurationError := by
  have hk : apiKeyInvalid k = true := by
    rcases h with h | ⟨s, hs, h⟩
    · subst h; rfl
    · subst hs
      rcases h with h | h | h
      · subst h; rfl
      · subst h; rfl
      · simp [apiKeyInvalid, h]
  exact ⟨by simp [analyzeIngredientsAndGetRecipes, hk], by decide⟩

/-- C3 witness at the empty credential. -/
theorem invalid_credential_short_circuits_witness :
    analyzeIngredientsAndGetRecipes (some "") (.responds (some "x"))
      = (.error apiKeyMissingMsg, false) ∧
    errKind apiKeyMissingMsg = ErrKind.ConfigurationError :=
  invalid_credential_short_circuits (some "")
    (Or.inr ⟨"", rfl, Or.inl rfl⟩) (.responds (some "x"))

/-- C4: with a never-resolving service the capture pipeline stores the
timeout message (kind TimeoutError) at exactly the configured 45000 ms
deadline, which lies in the 35–45 s range; a service resolution at or after
the deadline is discarded — final state and update sequence are identical
to the never-resolving run — and every run performs exactly one
stored-outcome write. -/
theorem analysis_deadline_race (s : AppState) :
    handleCapture s .never
      = (⟨false, s.result, some timeoutMsg⟩, deadlineMs) ∧
    35000 ≤ deadlineMs ∧ deadlineMs ≤ 45000 ∧
    errKind timeoutMsg = ErrKind.TimeoutError ∧
    (∀ (t : Nat) (r : Except String Json), deadlineMs ≤ t →
        handleCapture s (.resolvesAt t r) = handleCapture s .never ∧
        handleCaptureEvents (.resolvesAt t r) = handleCaptureEvents .never) ∧
    (∀ svc : SvcBehavior, outcomeWrites (handleCaptureEvents svc) = 1) := by
  refine ⟨rfl, by decide, by decide, by decide, ?_, ?_⟩
  · intro t r h
    have ht : ¬(t < deadlineMs) := Nat.not_lt.mpr h
    constructor
    · simp [handleCapture, handleCaptureEvents, raceOutcome, ht]
    · simp [handleCaptureEvents, raceOutcome, ht]
  · intro svc
    cases svc with
    | never => rfl
    | resolvesAt t r =>
      by_cases ht : t < deadlineMs
      · cases r with
        | ok d =>
          simp [handleCaptureEvents, raceOutcome, ht, outcomeWrites, isOutcomeWrite]
        | error m =>
          simp [handleCaptureEvents, raceOutcome, ht, outcomeWrites, isOutcomeWrite]
      · simp [handleCaptureEvents, raceOutcome, ht, outcomeWrites, isOutcomeWrite]

/-- C4 witness: a resolution 15 s past the deadline is indistinguishable
from one that never arrives. -/
theorem analysis_deadline_race_witness :
    handleCapture ⟨false, none, none⟩ (.resolvesAt 60000 (.ok Json.null))
      = handleCapture ⟨false, none, none⟩ .never :=
  ((analysis_deadline_race ⟨false, none, none⟩).2.2.2.2.1 60000 (.ok Json.null)
    (by decide)).1

/-- C5 (counterexample): the payload `null` has no ingredients field, yet
the pipeline surfaces the raw `TypeError` message (kind UnknownError), not
the ValidationError message. -/
theorem null_payload_not_validation_error :
    analyzeIngredientsAndGetRecipes goodKey (.responds (some "null"))
      = (.error nullIngredientsReadMsg, true) ∧
    errKind nullIngredientsReadMsg = ErrKind.UnknownError := ⟨rfl, rfl⟩

/-- C5 (amended): for every non-`null` parsed payload whose ingredients
field is absent or an empty array, the validator raises the no-ingredients
message, which the catch block passes through unchanged and which
classifies as ValidationError — never ParseError. -/
theorem missing_or_empty_ingredients_validation_error (v : Json)
    (h : getProp v "ingredients" = .ok .undefined ∨
         getProp v "ingredients" = .ok (.val (.arr []))) :
    checkIngredients v = .error noIngredientsMsg ∧
    catchMap noIngredientsMsg = noIngredientsMsg ∧
    errKind noIngredientsMsg = ErrKind.ValidationError ∧
    ¬(ErrKind.ValidationError = ErrKind.ParseError) := by
  refine ⟨?_, by decide, by decide, by decide⟩
  rcases h with h | h <;> (simp only [checkIngredients]; rw [h]; rfl)

/-- C5 witness at the empty object (absent ingredients). -/
theorem missing_or_empty_ingredients_validation_error_witness :
    checkIngredients (Json.obj []) = .error noIngredientsMsg ∧
    catchMap noIngredientsMsg = noIngredientsMsg ∧
    errKind noIngredientsMsg = ErrKind.ValidationError ∧
    ¬(ErrKind.ValidationError = ErrKind.ParseError) :=
  missing_or_empty_ingredients_validation_error (Json.obj []) (Or.inl rfl)

/-- C6 (counterexample): the truncated non-JSON input `{` fails with
`Unexpected end of JSON input`, and the non-JSON input `[1 2]` fails with
the number-token-out-of-place message; neither contains `Unexpected token`,
which is all the catch block checks for, so both surface raw — their kind
degrades to UnknownError, not ParseError. -/
theorem truncated_json_not_parse_error :
    analyzeIngredientsAndGetRecipes goodKey (.responds (some "\x7b"))
      = (.error "Unexpected end of JSON input", true) ∧
    errKind "Unexpected end of JSON input" = ErrKind.UnknownError ∧
    parseJson (cleanedText "\x7b") = .error .unexpectedEnd ∧
    analyzeIngredientsAndGetRecipes goodKey (.responds (some "[1 2]"))
      = (.error "Unexpected number in JSON", true) ∧
    errKind "Unexpected number in JSON" = ErrKind.UnknownError ∧
    parseJson (cleanedText "[1 2]") = .error .unexpectedNumber :=
  ⟨rfl, rfl, rfl, rfl, rfl, rfl⟩

/-- C6 (amended): a non-JSON input rejected at a value-start position — a
character that cannot begin a JSON value, the one failure class every
engine era reports with `Unexpected token` — surfaces the ParseError
message (kind ParseError); the empty payload is reported before parsing
with a distinct message; the other parse-failure classes (truncation,
a number or string token out of place) are worded without
`Unexpected token` and pass through the catch block unclassified. -/
theorem unexpected_token_yields_parse_error :
    (∀ (t : String) (c : Char), ¬(t = "") →
      parseJson (cleanedText t) = .error (.unexpectedToken c) →
      analyzeIngredientsAndGetRecipes goodKey (.responds (some t))
        = (.error parseFailMsg, true)) ∧
    errKind parseFailMsg = ErrKind.ParseError ∧
    validateResponseText (some "") = .error emptyResponseMsg ∧
    validateResponseText none = .error emptyResponseMsg ∧
    ¬(emptyResponseMsg = parseFailMsg) ∧
    catchMap (renderPErr .unexpectedEnd) = renderPErr .unexpectedEnd ∧
    catchMap (renderPErr .unexpectedNumber) = renderPErr .unexpectedNumber ∧
    catchMap (renderPErr .unexpectedString) = renderPErr .unexpectedString := by
  refine ⟨?_, by decide, rfl, rfl, by decide, rfl, rfl, rfl⟩
  intro t c ht hp
  have hk : apiKeyInvalid goodKey = false := by decide
  have hv : validateResponseText (some t)
      = .error (renderPErr (.unexpectedToken c)) := by
    simp only [validateResponseText]
    rw [if_neg ht, hp]
  simp [analyzeIngredientsAndGetRecipes, hk, hv, catchMap,
        tokenMsg_no_fetch, tokenMsg_has_token]

/-- C6 witness at the non-JSON input `hello`. -/
theorem unexpected_token_yields_parse_error_witness :
    analyzeIngredientsAndGetRecipes goodKey (.responds (some "hello"))
      = (.error parseFailMsg, true) :=
  unexpected_token_yields_parse_error.1 "hello" 'h' (by decide) rfl

/-- C7 (counterexample): `handleCapture` clears only the prior error, not
the prior result, so a failing capture right after a successful one leaves
both a result and an error stored — the at-most-one-outcome invariant is
violated by that operation sequence. -/
theorem failed_capture_keeps_prior_result :
    ¬ atMostOne (handleCapture
        (handleCapture ⟨false, none, none⟩ (.resolvesAt 100 (.ok (Json.obj [])))).1
        (.resolvesAt 200 (.error "boom"))).1 := by
  intro h
  rcases h with h | h <;> exact Option.noConfusion h

/-- C7 (amended): `reset` clears both stored outcomes unconditionally, and
the at-most-one-outcome invariant holds in every state reachable when each
capture starts with no stored result — which the rendering enforces, since
the capture view is only mounted while the result is null. -/
theorem guarded_outcome_invariant :
    (∀ s : AppState, ReachableGuarded s → atMostOne s) ∧
    (∀ s : AppState, handleReset s = ⟨s.isProcessing, none, none⟩) := by
  constructor
  · intro s h
    induction h with
    | start => exact Or.inl rfl
    | capture s2 svc h2 hres ih =>
      rcases handleCapture_shape s2 svc with ⟨d, hd⟩ | ⟨m, hm⟩
      · rw [hd]; exact Or.inr rfl
      · rw [hm]; exact Or.inl hres
    | reset s2 h2 ih => exact Or.inl rfl
  · intro s; rfl

/-- C7 witness: the invariant at a concretely reached state. -/
theorem guarded_outcome_invariant_witness :
    atMostOne (handleCapture ⟨false, none, none⟩
      (.resolvesAt 100 (.error "boom"))).1 :=
  guarded_outcome_invariant.1 _
    (ReachableGuarded.capture ⟨false, none, none⟩ (.resolvesAt 100 (.error "boom"))
      ReachableGuarded.start rfl)

/-- C8 (counterexample): in the `src/components/CameraView.tsx` revision a
preferred-configuration failure transitions straight to the error surface —
only the preferred constraint set is attempted — even though the same
oracle would have granted the any-camera request. -/
theorem main_start_no_fallback :
    startCamera true "app.example.com" acqPrefFails
      = (.errorMsg camUnavailableMsg, [preferredConstraints]) ∧
    acqPrefFails anyCameraConstraints = .ok 7 := ⟨rfl, rfl⟩

/-- C8 (amended): the any-camera fallback exists only in the
`src/unnamed/part_002` revision, where a preferred-configuration failure
leads to a second, minimal acquisition attempt and the error surface is
reached exactly when both attempts fail; the `CameraView.tsx` revision
attempts only the preferred configuration. -/
theorem fallback_revision_behavior :
    (∀ (acquire : Constraints → Except String Nat) (e : String),
      acquire preferredConstraintsAlt = .error e →
        (startCameraFallback acquire).2
          = [preferredConstraintsAlt, anyCameraConstraints] ∧
        (∀ sid, acquire anyCameraConstraints = .ok sid →
          (startCameraFallback acquire).1 = .acquired sid) ∧
        (∀ e2, acquire anyCameraConstraints = .error e2 →
          (startCameraFallback acquire).1 = .errorMsg camAccessFailMsg)) ∧
    (∀ (acquire : Constraints → Except String Nat) (m : String),
      (startCameraFallback acquire).1 = .errorMsg m →
        (∃ e1, acquire preferredConstraintsAlt = .error e1) ∧
        (∃ e2, acquire anyCameraConstraints = .error e2)) ∧
    (∀ (acquire : Constraints → Except String Nat) (host : String) (e : String),
      acquire preferredConstraints = .error e →
        (startCamera true host acquire).2 = [preferredConstraints]) := by
  refine ⟨?_, ?_, ?_⟩
  · intro acquire e he
    refine ⟨?_, ?_, ?_⟩
    · cases ha : acquire anyCameraConstraints <;>
        simp [startCameraFallback, he, ha]
    · intro sid ha; simp [startCameraFallback, he, ha]
    · intro e2 ha; simp [startCameraFallback, he, ha]
  · intro acquire m hm
    cases hp : acquire preferredConstraintsAlt with
    | ok sid => simp [startCameraFallback, hp] at hm
    | error e1 =>
      cases ha : acquire anyCameraConstraints with
      | ok sid2 => simp [startCameraFallback, hp, ha] at hm
      | error e2 => exact ⟨⟨e1, hp ▸ rfl⟩, ⟨e2, ha ▸ rfl⟩⟩
  · intro acquire host e he
    simp [startCamera, he]

/-- C8 witness: with every acquisition failing, the fallback revision
surfaces its error after both attempts. -/
theorem fallback_revision_behavior_witness :
    (startCameraFallback acqAllFail).1 = .errorMsg camAccessFailMsg :=
  (fallback_revision_behavior.1 acqAllFail "NotFoundError" rfl).2.2
    "NotFoundError" rfl

/-- C9: `capturePhoto` is a no-op — same state, no actions — under any of
the guards (analysis in flight, stream not active, missing refs, no frame
data, zero width); past the guards, with a 2d context, a live source and a
well-formed non-empty encoder payload, it emits the encoded frame, stores
the captured image, and clears the streaming flag. -/
theorem capture_noop_and_success (st : CamUiState) (fs : FrameSource) :
    ((st.isProcessing = true ∨ st.streamActive = false ∨ fs.videoPresent = false ∨
      fs.canvasPresent = false ∨ fs.readyState < 2 ∨ fs.videoWidth = 0) →
      capturePhoto st fs = (st, [])) ∧
    (st.isProcessing = false → st.streamActive = true → fs.videoPresent = true →
     fs.canvasPresent = true → 2 ≤ fs.readyState → ¬(fs.videoWidth = 0) →
     fs.hasContext = true → fs.srcObjectPresent = true →
     ¬(fs.encodePayload = "") → (∀ c ∈ fs.encodePayload.data, ¬(c = ',')) →
      CapEv.emit fs.encodePayload ∈ (capturePhoto st fs).2 ∧
      (capturePhoto st fs).1.capturedImage = some (mkDataUrl fs.encodePayload) ∧
      (capturePhoto st fs).1.streamActive = false) := by
  constructor
  · intro h
    by_cases h1 : (st.isProcessing || !st.streamActive || !fs.videoPresent ||
        !fs.canvasPresent) = true
    · simp [capturePhoto, h1]
    · simp only [Bool.or_eq_true, Bool.not_eq_true', not_or] at h1
      obtain ⟨⟨⟨hp, hs⟩, hv⟩, hcv⟩ := h1
      rcases h with h | h | h | h | h | h
      · exact absurd h (by simp [hp])
      · exact absurd h (by simp [hs])
      · exact absurd h (by simp [hv])
      · exact absurd h (by simp [hcv])
      · simp [capturePhoto, hp, hs, hv, hcv, h]
      · simp [capturePhoto, hp, hs, hv, hcv, h]
  · intro hp hs hv hcv hr hw hctx hsrc hne hcm
    have hnr : ¬(fs.readyState < 2) := Nat.not_lt.mpr hr
    have hsp := splitComma1_mkDataUrl fs.encodePayload hne hcm
    simp [capturePhoto, hp, hs, hv, hcv, hnr, hw, hctx, hsrc, hsp, hne]

/-- C9 witness: no-op on an inactive stream, and a successful capture past
the guards. -/
theorem capture_noop_and_success_witness :
    capturePhoto ⟨false, false, false, none⟩ ⟨true, true, 4, 640, 480, true, true, "abc"⟩
      = (⟨false, false, false, none⟩, []) ∧
    (CapEv.emit "abc" ∈ (capturePhoto ⟨false, true, false, none⟩
        ⟨true, true, 4, 640, 480, true, true, "abc"⟩).2 ∧
     (capturePhoto ⟨false, true, false, none⟩
        ⟨true, true, 4, 640, 480, true, true, "abc"⟩).1.capturedImage
       = some (mkDataUrl "abc") ∧
     (capturePhoto ⟨false, true, false, none⟩
        ⟨true, true, 4, 640, 480, true, true, "abc"⟩).1.streamActive = false) :=
  ⟨(capture_noop_and_success ⟨false, false, false, none⟩
      ⟨true, true, 4, 640, 480, true, true, "abc"⟩).1 (Or.inr (Or.inl rfl)),
   (capture_noop_and_success ⟨false, true, false, none⟩
      ⟨true, true, 4, 640, 480, true, true, "abc"⟩).2 rfl rfl rfl rfl
     (by decide) (by decide) rfl rfl (by decide) (by decide)⟩

/-- C10: once `capturePhoto` passes its guards and rasterizes a frame, the
action sequence is exactly flash, rasterize, an emission only when the data
URL yields a non-empty base64 segment, then the unconditional track stop;
so the stream is always released, `onCapture` precedes the stop, and an
empty payload suppresses the emission (and any downstream analysis). -/
theorem capture_releases_stream (st : CamUiState) (fs : FrameSource)
    (h1 : st.isProcessing = false) (h2 : st.streamActive = true)
    (h3 : fs.videoPresent = true) (h4 : fs.canvasPresent = true)
    (h5 : 2 ≤ fs.readyState) (h6 : ¬(fs.videoWidth = 0))
    (h7 : fs.hasContext = true) (h8 : fs.srcObjectPresent = true)
    (hc : ∀ c ∈ fs.encodePayload.data, ¬(c = ',')) :
    (capturePhoto st fs).2
      = [CapEv.flash, CapEv.rasterize] ++
        (if fs.encodePayload = "" then [] else [CapEv.emit fs.encodePayload]) ++
        [CapEv.stopTracks] ∧
    (capturePhoto st fs).1.streamActive = false := by
  have hnr : ¬(fs.readyState < 2) := Nat.not_lt.mpr h5
  by_cases hp : fs.encodePayload = ""
  · have hsp : splitComma1 "data:," = some "" := rfl
    constructor <;>
      simp [capturePhoto, h1, h2, h3, h4, hnr, h6, h7, h8, hp, mkDataUrl, hsp]
  · have hsp := splitComma1_mkDataUrl fs.encodePayload hp hc
    constructor <;>
      simp [capturePhoto, h1, h2, h3, h4, hnr, h6, h7, h8, hsp, hp]

/-- C10 witness: an empty payload still stops the tracks but emits nothing;
a non-empty payload emits before the stop. -/
theorem capture_releases_stream_witness :
    ((capturePhoto ⟨false, true, false, none⟩
        ⟨true, true, 4, 640, 480, true, true, ""⟩).2
      = [CapEv.flash, CapEv.rasterize] ++
        (if ("" : String) = "" then [] else [CapEv.emit ""]) ++ [CapEv.stopTracks]) ∧
    (capturePhoto ⟨false, true, false, none⟩
        ⟨true, true, 4, 640, 480, true, true, ""⟩).1.streamActive = false :=
  capture_releases_stream ⟨false, true, false, none⟩
    ⟨true, true, 4, 640, 480, true, true, ""⟩ rfl rfl rfl rfl
    (by decide) (by decide) rfl rfl (by decide)
